import Mathlib

/-!
Shallow embedding of `src/lib/preprocessor/environment/standard.h`.

The source file holds two independent header variants, each evaluated once
per translation unit by the C preprocessor:

* the REBOOT variant (macro prefix `REBOOT_PREPROCESSOR_ENVIRONMENT_STANDARD_`,
  plus the separate macro `REBOOT_PREPROCESSOR_ENVIRONMENT_NON_STANDARD_C`);
* the AMPLIFY variant (macro prefix `AMPLIFY_PREPROCESSOR_STANDARD_`), the
  second document in the same source file.

Each variant is a straight-line sequence of conditional-compilation blocks
that read the predefined macros `__STDC__`, `__STDC_VERSION__`,
`__STDC_HOSTED__`, `__cplusplus`, `__cplusplus_cli`, `__cplusplus_winrt`
and `__embedded_cplusplus`, and define a normalized version constant plus
a set of flag macros.  We model a macro whose numeric value is inspected
(`__STDC__`, `__STDC_VERSION__`, `__cplusplus`) as `Option Int` (`none`
means not defined) and a macro tested only with `#ifdef` or `defined(...)`
as `Bool`.  A `#define` of an object-like macro is modelled as overwriting
its value (actual preprocessors diagnose a changed redefinition but adopt
the new replacement list; the ladder blocks of the header `#undef` before
redefining, while its dialect blocks redefine directly).  Each block of a
variant becomes one state-transformer on a record of the output macros of
that variant, and the variant is the composition of its blocks in source
order.

One block of the AMPLIFY variant is textually broken: at source lines
555-556 the directive

  `#  if ! defined(AMPLIFY_PREPROCESSOR_STANDARD_C)`
  `   || ! defined(AMPLIFY_PREPROCESSOR_STANDARD_C_1989)`

has no line continuation after the first line, so the `#if` condition is
only `! defined(AMPLIFY_PREPROCESSOR_STANDARD_C)` and the second line is
an ordinary text line inside the conditional group.  When the group is
taken, that text line is emitted into the translation unit as stray tokens
(the unit then fails to parse as C); preprocessing itself still performs
the `#define`s of the group.  The field `strayTokens` records that this
ill-forming emission happened.
-/

/-- The compilation environment: the predefined macros the header reads.
`none` / `false` mean the macro is not defined.  Only `__STDC__`,
`__STDC_VERSION__` and `__cplusplus` ever have their numeric value
inspected; the other four are tested with `#ifdef` / `defined` only. -/
structure Env where
  stdc : Option Int := none
  stdcVersion : Option Int := none
  stdcHosted : Bool := false
  cplusplus : Option Int := none
  cplusplusCli : Bool := false
  cplusplusWinrt : Bool := false
  embeddedCplusplus : Bool := false
deriving Repr, DecidableEq

/-- Output macros of the REBOOT variant.  Field names drop the common
prefix `REBOOT_PREPROCESSOR_ENVIRONMENT_STANDARD_` (and the separate
macro `REBOOT_PREPROCESSOR_ENVIRONMENT_NON_STANDARD_C` becomes
`nonStandardC`).  A `Bool` field is `true` iff the macro ends up defined;
`c` and `cpp` hold the numeric constants when defined.  The introductory
comment of the header also lists a `C90` level, but no directive of the
variant ever defines a C90/1990 macro, so no such field exists. -/
structure RebootState where
  c : Option Int := none
  cpp : Option Int := none
  hasC : Bool := false
  hasIsoC : Bool := false
  hasC89 : Bool := false
  hasC94 : Bool := false
  hasC99 : Bool := false
  hasC11 : Bool := false
  hasC17 : Bool := false
  hasC18 : Bool := false
  hasAtLeastC89 : Bool := false
  hasAtLeastC94 : Bool := false
  hasAtLeastC99 : Bool := false
  hasAtLeastC11 : Bool := false
  cpp98 : Bool := false
  cpp11 : Bool := false
  cpp14 : Bool := false
  cpp17 : Bool := false
  cppCli : Bool := false
  cppWcx : Bool := false
  cppEmb : Bool := false
  nonStandardC : Bool := false
deriving Repr, DecidableEq

/-- Output macros of the AMPLIFY variant.  Field names drop the common
prefix `AMPLIFY_PREPROCESSOR_STANDARD_`.  `strayTokens` is `true` when
the broken conditional group at source lines 555-563 was taken, emitting
its unjoined second condition line into the translation unit as program
text.  The macro `AMPLIFY_PREPROCESSOR_STANDARD_C_2018` is documented in
the header comment but never defined by any directive, and the variant
has no `__cplusplus_winrt` block, so neither appears here. -/
structure AmplifyState where
  c : Option Int := none
  cpp : Option Int := none
  c1989 : Bool := false
  c1990 : Bool := false
  c1994 : Bool := false
  c1999 : Bool := false
  c2011 : Bool := false
  c2017 : Bool := false
  cpp1998 : Bool := false
  cpp2011 : Bool := false
  cpp2014 : Bool := false
  cpp2017 : Bool := false
  cppCli : Bool := false
  cppEmb : Bool := false
  strayTokens : Bool := false
deriving Repr, DecidableEq

/-- REBOOT, source lines 155-342: `#ifdef __STDC__` defines `HAS_C` and
`HAS_C89` (line 157-158), `HAS_ISO_C` when `__STDC__ == 1` (160-176),
then `#ifdef __STDC_VERSION__` runs the `#if`/`#elif` ladder with
thresholds `201710L`, `201112L`, `199901L`, `199409L` and a final
`#else`; the `#else` of `__STDC__` (338-341) defines `NON_STANDARD_C`. -/
def rebootCSection (e : Env) (s : RebootState) : RebootState :=
  match e.stdc with
  | some stdcVal =>
    let s := { s with hasC := true, hasC89 := true }
    let s := if stdcVal == 1 then { s with hasIsoC := true } else s
    match e.stdcVersion with
    | some v =>
      if v >= 201710 then
        { s with c := some 201710, hasC17 := true, hasC18 := true,
                 hasAtLeastC11 := true, hasAtLeastC99 := true,
                 hasAtLeastC94 := true, hasAtLeastC89 := true }
      else if v >= 201112 then
        { s with c := some 201112, hasC11 := true,
                 hasAtLeastC11 := true, hasAtLeastC99 := true,
                 hasAtLeastC94 := true, hasAtLeastC89 := true }
      else if v >= 199901 then
        { s with c := some 199901, hasC99 := true,
                 hasAtLeastC99 := true, hasAtLeastC94 := true,
                 hasAtLeastC89 := true }
      else if v >= 199409 then
        { s with c := some 199409, hasC94 := true,
                 hasAtLeastC94 := true, hasAtLeastC89 := true }
      else
        { s with c := some 198912, hasC89 := true, hasAtLeastC89 := true }
    | none => s
  | none => { s with nonStandardC := true }

/-- REBOOT, source lines 347-383: `#ifdef __cplusplus` with four
independent `#if` blocks at `199707L` (HP aC++ value; defines
`CPP 199711L` and `CPP98`), `201103L`, `201402L`, `201703L`, each doing
`#undef` then `#define` of `CPP`.  The trailing empty
`#ifndef ... #endif` at lines 380-381 defines nothing. -/
def rebootCppLadder (e : Env) (s : RebootState) : RebootState :=
  match e.cplusplus with
  | some v =>
    let s := if v >= 199707 then { s with cpp := some 199711, cpp98 := true } else s
    let s := if v >= 201103 then { s with cpp := some 201103, cpp11 := true } else s
    let s := if v >= 201402 then { s with cpp := some 201402, cpp14 := true } else s
    let s := if v >= 201703 then { s with cpp := some 201703, cpp17 := true } else s
    s
  | none => s

/-- REBOOT, source lines 392-398: `#ifdef __cplusplus_cli` defines
`CPP 1998`, `CPP98` and `CPP_CLI` (no preceding `#undef`). -/
def rebootCli (e : Env) (s : RebootState) : RebootState :=
  if e.cplusplusCli then { s with cpp := some 1998, cpp98 := true, cppCli := true } else s

/-- REBOOT, source lines 406-412: `#ifdef __cplusplus_winrt` defines
`CPP 2011`, `CPP11` and `CPP_WCX`. -/
def rebootWinrt (e : Env) (s : RebootState) : RebootState :=
  if e.cplusplusWinrt then { s with cpp := some 2011, cpp11 := true, cppWcx := true } else s

/-- REBOOT, source lines 428-433: `#ifdef __embedded_cplusplus` defines
`CPP 0` and `CPP_EMB`. -/
def rebootEmb (e : Env) (s : RebootState) : RebootState :=
  if e.embeddedCplusplus then { s with cpp := some 0, cppEmb := true } else s

/-- The REBOOT variant: its blocks composed in source order, starting
from the state in which no output macro is defined. -/
def reboot (e : Env) : RebootState :=
  rebootEmb e (rebootWinrt e (rebootCli e (rebootCppLadder e (rebootCSection e {}))))

/-- AMPLIFY, source lines 543-548: `#ifdef __STDC__` defines `C 1989`
and `C_1989`. -/
def amplifyC (e : Env) (s : AmplifyState) : AmplifyState :=
  if e.stdc.isSome then { s with c := some 1989, c1989 := true } else s

/-- AMPLIFY, source lines 555-563 (inside `#ifdef __STDC_VERSION__`):
`#if ! defined(AMPLIFY_PREPROCESSOR_STANDARD_C)`.  The intended second
condition line `|| ! defined(AMPLIFY_PREPROCESSOR_STANDARD_C_1989)` is
not joined to the directive by a line continuation, so it is a plain text
line of the group: when the group is taken it is emitted as stray tokens
(recorded in `strayTokens`) and the `#define` directives of the group for
`C 1994`, `C_1989`, `C_1990` and `C_1994` are performed. -/
def amplifyCDefault (s : AmplifyState) : AmplifyState :=
  if s.c.isNone then
    { s with strayTokens := true, c := some 1994,
             c1989 := true, c1990 := true, c1994 := true }
  else s

/-- AMPLIFY, source lines 565-569: `#if (__STDC_VERSION__ >= 199409L)`
redefines `C 1994` and defines `C_1994`. -/
def amplifyC1994 (v : Int) (s : AmplifyState) : AmplifyState :=
  if v >= 199409 then { s with c := some 1994, c1994 := true } else s

/-- AMPLIFY, source lines 571-576:
`#if (__STDC_VERSION__ >= 199901L) || defined(__STDC_HOSTED__)`
redefines `C 1999` and defines `C_1999`.  Note that the whole block sits
inside `#ifdef __STDC_VERSION__`, so the hosted signal is only consulted
when the numeric version signal is present. -/
def amplifyC1999 (e : Env) (v : Int) (s : AmplifyState) : AmplifyState :=
  if v >= 199901 || e.stdcHosted then { s with c := some 1999, c1999 := true } else s

/-- AMPLIFY, source lines 578-582: `#if (__STDC_VERSION__ >= 201112L)`
redefines `C 2011` and defines `C_2011`. -/
def amplifyC2011 (v : Int) (s : AmplifyState) : AmplifyState :=
  if v >= 201112 then { s with c := some 2011, c2011 := true } else s

/-- AMPLIFY, source lines 584-588: `#if (__STDC_VERSION__ >= 201710L)`
redefines `C 2017` and defines `C_2017`. -/
def amplifyC2017 (v : Int) (s : AmplifyState) : AmplifyState :=
  if v >= 201710 then { s with c := some 2017, c2017 := true } else s

/-- AMPLIFY, source lines 553-590: the `#ifdef __STDC_VERSION__` section,
its five inner blocks in source order. -/
def amplifyCVersion (e : Env) (s : AmplifyState) : AmplifyState :=
  match e.stdcVersion with
  | some v =>
    amplifyC2017 v (amplifyC2011 v (amplifyC1999 e v (amplifyC1994 v (amplifyCDefault s))))
  | none => s

/-- AMPLIFY, source lines 597-633: `#ifdef __cplusplus` with four `#if`
blocks at `199711L`, `201103L`, `201402L`, `201703L`, each `#undef` then
`#define` of `CPP` to 1998, 2011, 2014, 2017.  The trailing empty
`#ifndef ... #endif` at lines 630-631 defines nothing. -/
def amplifyCppLadder (e : Env) (s : AmplifyState) : AmplifyState :=
  match e.cplusplus with
  | some v =>
    let s := if v >= 199711 then { s with cpp := some 1998, cpp1998 := true } else s
    let s := if v >= 201103 then { s with cpp := some 2011, cpp2011 := true } else s
    let s := if v >= 201402 then { s with cpp := some 2014, cpp2014 := true } else s
    let s := if v >= 201703 then { s with cpp := some 2017, cpp2017 := true } else s
    s
  | none => s

/-- AMPLIFY, source lines 642-648: `#ifdef __cplusplus_cli` defines
`CPP 1998`, `CPP_1998` and `CPP_CLI` (no preceding `#undef`). -/
def amplifyCli (e : Env) (s : AmplifyState) : AmplifyState :=
  if e.cplusplusCli then { s with cpp := some 1998, cpp1998 := true, cppCli := true } else s

/-- AMPLIFY, source lines 664-669: `#ifdef __embedded_cplusplus` defines
`CPP 0` and `CPP_EMB`. -/
def amplifyEmb (e : Env) (s : AmplifyState) : AmplifyState :=
  if e.embeddedCplusplus then { s with cpp := some 0, cppEmb := true } else s

/-- The AMPLIFY variant: its blocks composed in source order, starting
from the state in which no output macro is defined. -/
def amplify (e : Env) : AmplifyState :=
  amplifyEmb e (amplifyCli e (amplifyCppLadder e (amplifyCVersion e (amplifyC e {}))))

/-! Preservation lemmas: the C++-side blocks of each variant never touch
the C-side output macros, and conversely.  These let the claim proofs
project a field through the blocks that do not concern it. -/

@[simp] theorem amplifyCppLadder_c (e : Env) (s : AmplifyState) :
    (amplifyCppLadder e s).c = s.c := by
  cases h : e.cplusplus <;> simp [amplifyCppLadder, h] <;> split_ifs <;> rfl

@[simp] theorem amplifyCppLadder_c1990 (e : Env) (s : AmplifyState) :
    (amplifyCppLadder e s).c1990 = s.c1990 := by
  cases h : e.cplusplus <;> simp [amplifyCppLadder, h] <;> split_ifs <;> rfl

@[simp] theorem amplifyCppLadder_c1999 (e : Env) (s : AmplifyState) :
    (amplifyCppLadder e s).c1999 = s.c1999 := by
  cases h : e.cplusplus <;> simp [amplifyCppLadder, h] <;> split_ifs <;> rfl

@[simp] theorem amplifyCli_c (e : Env) (s : AmplifyState) :
    (amplifyCli e s).c = s.c := by
  simp only [amplifyCli]; split <;> rfl

@[simp] theorem amplifyCli_c1990 (e : Env) (s : AmplifyState) :
    (amplifyCli e s).c1990 = s.c1990 := by
  simp only [amplifyCli]; split <;> rfl

@[simp] theorem amplifyCli_c1999 (e : Env) (s : AmplifyState) :
    (amplifyCli e s).c1999 = s.c1999 := by
  simp only [amplifyCli]; split <;> rfl

@[simp] theorem amplifyEmb_c (e : Env) (s : AmplifyState) :
    (amplifyEmb e s).c = s.c := by
  simp only [amplifyEmb]; split <;> rfl

@[simp] theorem amplifyEmb_c1990 (e : Env) (s : AmplifyState) :
    (amplifyEmb e s).c1990 = s.c1990 := by
  simp only [amplifyEmb]; split <;> rfl

@[simp] theorem amplifyEmb_c1999 (e : Env) (s : AmplifyState) :
    (amplifyEmb e s).c1999 = s.c1999 := by
  simp only [amplifyEmb]; split <;> rfl

@[simp] theorem rebootCppLadder_c (e : Env) (s : RebootState) :
    (rebootCppLadder e s).c = s.c := by
  cases h : e.cplusplus <;> simp [rebootCppLadder, h] <;> split_ifs <;> rfl

@[simp] theorem rebootCppLadder_hasC (e : Env) (s : RebootState) :
    (rebootCppLadder e s).hasC = s.hasC := by
  cases h : e.cplusplus <;> simp [rebootCppLadder, h] <;> split_ifs <;> rfl

@[simp] theorem rebootCppLadder_hasC89 (e : Env) (s : RebootState) :
    (rebootCppLadder e s).hasC89 = s.hasC89 := by
  cases h : e.cplusplus <;> simp [rebootCppLadder, h] <;> split_ifs <;> rfl

@[simp] theorem rebootCppLadder_nonStandardC (e : Env) (s : RebootState) :
    (rebootCppLadder e s).nonStandardC = s.nonStandardC := by
  cases h : e.cplusplus <;> simp [rebootCppLadder, h] <;> split_ifs <;> rfl

@[simp] theorem rebootCli_c (e : Env) (s : RebootState) :
    (rebootCli e s).c = s.c := by
  simp only [rebootCli]; split <;> rfl

@[simp] theorem rebootCli_hasC (e : Env) (s : RebootState) :
    (rebootCli e s).hasC = s.hasC := by
  simp only [rebootCli]; split <;> rfl

@[simp] theorem rebootCli_hasC89 (e : Env) (s : RebootState) :
    (rebootCli e s).hasC89 = s.hasC89 := by
  simp only [rebootCli]; split <;> rfl

@[simp] theorem rebootCli_nonStandardC (e : Env) (s : RebootState) :
    (rebootCli e s).nonStandardC = s.nonStandardC := by
  simp only [rebootCli]; split <;> rfl

@[simp] theorem rebootWinrt_c (e : Env) (s : RebootState) :
    (rebootWinrt e s).c = s.c := by
  simp only [rebootWinrt]; split <;> rfl

@[simp] theorem rebootWinrt_hasC (e : Env) (s : RebootState) :
    (rebootWinrt e s).hasC = s.hasC := by
  simp only [rebootWinrt]; split <;> rfl

@[simp] theorem rebootWinrt_hasC89 (e : Env) (s : RebootState) :
    (rebootWinrt e s).hasC89 = s.hasC89 := by
  simp only [rebootWinrt]; split <;> rfl

@[simp] theorem rebootWinrt_nonStandardC (e : Env) (s : RebootState) :
    (rebootWinrt e s).nonStandardC = s.nonStandardC := by
  simp only [rebootWinrt]; split <;> rfl

@[simp] theorem rebootEmb_c (e : Env) (s : RebootState) :
    (rebootEmb e s).c = s.c := by
  simp only [rebootEmb]; split <;> rfl

@[simp] theorem rebootEmb_hasC (e : Env) (s : RebootState) :
    (rebootEmb e s).hasC = s.hasC := by
  simp only [rebootEmb]; split <;> rfl

@[simp] theorem rebootEmb_hasC89 (e : Env) (s : RebootState) :
    (rebootEmb e s).hasC89 = s.hasC89 := by
  simp only [rebootEmb]; split <;> rfl

@[simp] theorem rebootEmb_nonStandardC (e : Env) (s : RebootState) :
    (rebootEmb e s).nonStandardC = s.nonStandardC := by
  simp only [rebootEmb]; split <;> rfl

/-! Extra preservation lemmas for the inner blocks of the AMPLIFY
`__STDC_VERSION__` section: none of the four threshold blocks touches
the `C_1990` macro, which only the broken defaulting block defines. -/

@[simp] theorem amplifyC1994_c1990 (v : Int) (s : AmplifyState) :
    (amplifyC1994 v s).c1990 = s.c1990 := by
  simp only [amplifyC1994]; split <;> rfl

@[simp] theorem amplifyC1999_c1990 (e : Env) (v : Int) (s : AmplifyState) :
    (amplifyC1999 e v s).c1990 = s.c1990 := by
  simp only [amplifyC1999]; split <;> rfl

@[simp] theorem amplifyC2011_c1990 (v : Int) (s : AmplifyState) :
    (amplifyC2011 v s).c1990 = s.c1990 := by
  simp only [amplifyC2011]; split <;> rfl

@[simp] theorem amplifyC2017_c1990 (v : Int) (s : AmplifyState) :
    (amplifyC2017 v s).c1990 = s.c1990 := by
  simp only [amplifyC2017]; split <;> rfl

/-- C1 counterexample: with `__STDC__` = 1 and `__STDC_VERSION__` =
199409L, the AMPLIFY variant defines the 1994-threshold flag `C_1994`
but not the 1990-threshold flag `C_1990` (the only block defining
`C_1990`, the broken defaulting block, is skipped because the constant
`C` is already defined), so the flag set is not upward-closed over a
threshold list that includes 1990: the claim as stated is false. -/
theorem c1_flag_set_counterexample :
    (amplify { stdc := some 1, stdcVersion := some 199409 }).c1994 = true ∧
    (amplify { stdc := some 1, stdcVersion := some 199409 }).c1990 = false := by
  decide

/-- C1 amended: for every combination of the `__STDC__` and
`__STDC_VERSION__` signals (the other signals absent), the "at least"
flag sets of both variants are upward-closed over the thresholds that
actually have ladder flags — 1989, 1994, 1999, 2011, 2017/2018 — with
the 1990 threshold excluded: REBOOT defines no 1990 flag at all, and
the AMPLIFY flag `C_1990` (which does imply `C_1989` when defined) is
not defined by the version ladder.  Bool order `x ≤ y` states "if x is
defined then y is defined". -/
theorem c1_flag_set_upward_closed (sc sv : Option Int) :
    (reboot { stdc := sc, stdcVersion := sv }).hasC18 ≤
      (reboot { stdc := sc, stdcVersion := sv }).hasC17 ∧
    (reboot { stdc := sc, stdcVersion := sv }).hasC17 ≤
      (reboot { stdc := sc, stdcVersion := sv }).hasAtLeastC11 ∧
    (reboot { stdc := sc, stdcVersion := sv }).hasAtLeastC11 ≤
      (reboot { stdc := sc, stdcVersion := sv }).hasAtLeastC99 ∧
    (reboot { stdc := sc, stdcVersion := sv }).hasAtLeastC99 ≤
      (reboot { stdc := sc, stdcVersion := sv }).hasAtLeastC94 ∧
    (reboot { stdc := sc, stdcVersion := sv }).hasAtLeastC94 ≤
      (reboot { stdc := sc, stdcVersion := sv }).hasAtLeastC89 ∧
    (amplify { stdc := sc, stdcVersion := sv }).c2017 ≤
      (amplify { stdc := sc, stdcVersion := sv }).c2011 ∧
    (amplify { stdc := sc, stdcVersion := sv }).c2011 ≤
      (amplify { stdc := sc, stdcVersion := sv }).c1999 ∧
    (amplify { stdc := sc, stdcVersion := sv }).c1999 ≤
      (amplify { stdc := sc, stdcVersion := sv }).c1994 ∧
    (amplify { stdc := sc, stdcVersion := sv }).c1994 ≤
      (amplify { stdc := sc, stdcVersion := sv }).c1989 ∧
    (amplify { stdc := sc, stdcVersion := sv }).c1990 ≤
      (amplify { stdc := sc, stdcVersion := sv }).c1989 := by
  cases sc <;> cases sv <;>
    refine ⟨?_, ?_, ?_, ?_, ?_, ?_, ?_, ?_, ?_, ?_⟩ <;>
    simp [reboot, amplify, rebootEmb, rebootWinrt, rebootCli, rebootCppLadder,
      rebootCSection, amplifyEmb, amplifyCli, amplifyCppLadder, amplifyCVersion,
      amplifyC, amplifyCDefault, amplifyC1994, amplifyC1999, amplifyC2011,
      amplifyC2017] <;>
    split_ifs <;> simp_all <;> omega

/-- C2 counterexample: in the AMPLIFY variant, with `__STDC_HOSTED__`
present and `__STDC_VERSION__` absent (and `__STDC__` = 1), the hosted
signal has no effect: the whole hosted block sits inside
`#ifdef __STDC_VERSION__`, so the constant stays 1989 and `C_1999` is
not defined, contradicting the claim that the output is treated as
implying at least the 1999 threshold. -/
theorem c2_hosted_counterexample :
    (amplify { stdc := some 1, stdcHosted := true }).c = some 1989 ∧
    (amplify { stdc := some 1, stdcHosted := true }).c1999 = false := by
  decide

/-- C2 amended: in the AMPLIFY variant the hosted override applies only
when `__STDC_VERSION__` is present: if the numeric version signal is
present with any value below 199901L and `__STDC_HOSTED__` is defined,
the normalized C constant becomes 1999 and `C_1999` is defined; with
the version signal absent the hosted signal has no effect at all. -/
theorem c2_hosted_implies_c1999 (sc : Option Int) (v : Int) (hv : v < 199901) :
    (amplify { stdc := sc, stdcVersion := some v, stdcHosted := true }).c = some 1999 ∧
    (amplify { stdc := sc, stdcVersion := some v, stdcHosted := true }).c1999 = true := by
  cases sc <;> refine ⟨?_, ?_⟩ <;>
    simp [amplify, amplifyEmb, amplifyCli, amplifyCppLadder, amplifyCVersion,
      amplifyC, amplifyCDefault, amplifyC1994, amplifyC1999, amplifyC2011,
      amplifyC2017] <;>
    split_ifs <;> simp_all <;> omega

/-- C2 witness: the amended theorem applied at `__STDC__` = 1,
`__STDC_VERSION__` = 199409L, `__STDC_HOSTED__` defined. -/
theorem c2_hosted_implies_c1999_witness :
    ((199409 : Int) < 199901) ∧
    ((amplify { stdc := some 1, stdcVersion := some 199409, stdcHosted := true }).c
        = some 1999 ∧
     (amplify { stdc := some 1, stdcVersion := some 199409, stdcHosted := true }).c1999
        = true) :=
  ⟨by decide, c2_hosted_implies_c1999 (some 1) 199409 (by decide)⟩

/-- C3: for every value of `__cplusplus`, when `__cplusplus_cli` is also
present (and the WinRT and Embedded signals are not), both variants end
with the normalized C++ constant equal to the documented CLI fixed value
1998 and the CLI marker defined, because the CLI block runs after the
generic ladder; and the generic REBOOT ladder alone never produces the
value 1998 (its values are 199711L, 201103L, 201402L, 201703L), so the
CLI value indeed replaces the ladder value. -/
theorem c3_cli_override_precedence (v : Int) :
    (reboot { cplusplus := some v, cplusplusCli := true }).cpp = some 1998 ∧
    (reboot { cplusplus := some v, cplusplusCli := true }).cppCli = true ∧
    (amplify { cplusplus := some v, cplusplusCli := true }).cpp = some 1998 ∧
    (amplify { cplusplus := some v, cplusplusCli := true }).cppCli = true ∧
    (reboot { cplusplus := some v }).cpp ≠ some 1998 := by
  refine ⟨?_, ?_, ?_, ?_, ?_⟩ <;>
    simp [reboot, amplify, rebootEmb, rebootWinrt, rebootCli, rebootCppLadder,
      rebootCSection, amplifyEmb, amplifyCli, amplifyCppLadder, amplifyCVersion,
      amplifyC] <;>
    split_ifs <;> simp_all

/-- C4: with every input signal absent, neither variant defines a version
constant, a version flag or a dialect marker, and no error arises (no
stray-token emission).  The REBOOT variant does define its separate
non-detection marker `NON_STANDARD_C` in this case (claim C10); that
marker reports the undetectable case and is not one of the version
constants, "at least" flags or dialect markers quantified here. -/
theorem c4_empty_environment_no_outputs :
    (reboot {}).c = none ∧ (reboot {}).cpp = none ∧
    (reboot {}).hasC = false ∧ (reboot {}).hasIsoC = false ∧
    (reboot {}).hasC89 = false ∧ (reboot {}).hasC94 = false ∧
    (reboot {}).hasC99 = false ∧ (reboot {}).hasC11 = false ∧
    (reboot {}).hasC17 = false ∧ (reboot {}).hasC18 = false ∧
    (reboot {}).hasAtLeastC89 = false ∧ (reboot {}).hasAtLeastC94 = false ∧
    (reboot {}).hasAtLeastC99 = false ∧ (reboot {}).hasAtLeastC11 = false ∧
    (reboot {}).cpp98 = false ∧ (reboot {}).cpp11 = false ∧
    (reboot {}).cpp14 = false ∧ (reboot {}).cpp17 = false ∧
    (reboot {}).cppCli = false ∧ (reboot {}).cppWcx = false ∧
    (reboot {}).cppEmb = false ∧
    (amplify {}).c = none ∧ (amplify {}).cpp = none ∧
    (amplify {}).c1989 = false ∧ (amplify {}).c1990 = false ∧
    (amplify {}).c1994 = false ∧ (amplify {}).c1999 = false ∧
    (amplify {}).c2011 = false ∧ (amplify {}).c2017 = false ∧
    (amplify {}).cpp1998 = false ∧ (amplify {}).cpp2011 = false ∧
    (amplify {}).cpp2014 = false ∧ (amplify {}).cpp2017 = false ∧
    (amplify {}).cppCli = false ∧ (amplify {}).cppEmb = false ∧
    (amplify {}).strayTokens = false := by
  decide

/-- C5: with `__STDC__` present (any value) and `__STDC_VERSION__` =
199901L, and whether or not `__STDC_HOSTED__` is defined, REBOOT sets
its constant to the documented C99 value 199901L with the 1989, 1994
and 1999 level flags defined and the 2011 and 2017/2018 flags
undefined, and AMPLIFY sets its constant to 1999 with `C_1989`,
`C_1994`, `C_1999` defined and `C_2011`, `C_2017` undefined. -/
theorem c5_c99_signal_outputs (s : Int) (hosted : Bool) :
    (reboot { stdc := some s, stdcVersion := some 199901, stdcHosted := hosted }).c
      = some 199901 ∧
    (reboot { stdc := some s, stdcVersion := some 199901, stdcHosted := hosted }).hasC99
      = true ∧
    (reboot { stdc := some s, stdcVersion := some 199901, stdcHosted := hosted }).hasAtLeastC99
      = true ∧
    (reboot { stdc := some s, stdcVersion := some 199901, stdcHosted := hosted }).hasAtLeastC94
      = true ∧
    (reboot { stdc := some s, stdcVersion := some 199901, stdcHosted := hosted }).hasAtLeastC89
      = true ∧
    (reboot { stdc := some s, stdcVersion := some 199901, stdcHosted := hosted }).hasC11
      = false ∧
    (reboot { stdc := some s, stdcVersion := some 199901, stdcHosted := hosted }).hasAtLeastC11
      = false ∧
    (reboot { stdc := some s, stdcVersion := some 199901, stdcHosted := hosted }).hasC17
      = false ∧
    (reboot { stdc := some s, stdcVersion := some 199901, stdcHosted := hosted }).hasC18
      = false ∧
    (amplify { stdc := some s, stdcVersion := some 199901, stdcHosted := hosted }).c
      = some 1999 ∧
    (amplify { stdc := some s, stdcVersion := some 199901, stdcHosted := hosted }).c1989
      = true ∧
    (amplify { stdc := some s, stdcVersion := some 199901, stdcHosted := hosted }).c1994
      = true ∧
    (amplify { stdc := some s, stdcVersion := some 199901, stdcHosted := hosted }).c1999
      = true ∧
    (amplify { stdc := some s, stdcVersion := some 199901, stdcHosted := hosted }).c2011
      = false ∧
    (amplify { stdc := some s, stdcVersion := some 199901, stdcHosted := hosted }).c2017
      = false := by
  cases hosted <;>
    refine ⟨?_, ?_, ?_, ?_, ?_, ?_, ?_, ?_, ?_, ?_, ?_, ?_, ?_, ?_, ?_⟩ <;>
    simp [reboot, amplify, rebootEmb, rebootWinrt, rebootCli, rebootCppLadder,
      rebootCSection, amplifyEmb, amplifyCli, amplifyCppLadder, amplifyCVersion,
      amplifyC, amplifyCDefault, amplifyC1994, amplifyC1999, amplifyC2011,
      amplifyC2017] <;>
    split_ifs <;> simp_all

/-- C6 counterexample: with `__STDC__` = 1 and `__STDC_VERSION__` =
201710L, AMPLIFY defines its 2017 flag but not its documented
1990-threshold flag `C_1990` (its only defining block is unreachable
when `__STDC__` is present), so not every flag for every threshold up
to 2017/2018 is defined: the claim as stated is false. -/
theorem c6_c17_signal_counterexample :
    (amplify { stdc := some 1, stdcVersion := some 201710 }).c2017 = true ∧
    (amplify { stdc := some 1, stdcVersion := some 201710 }).c1990 = false := by
  decide

/-- C6 amended: with `__STDC__` present (any value) and
`__STDC_VERSION__` = 201710L, and whether or not `__STDC_HOSTED__` is
defined, every "at least" flag that the variants can define up to and
including the 2017/2018 threshold is defined — REBOOT: `HAS_C17`,
`HAS_C18`, `HAS_AT_LEAST_C11`, `HAS_AT_LEAST_C99`, `HAS_AT_LEAST_C94`,
`HAS_AT_LEAST_C89`; AMPLIFY: `C_1989`, `C_1994`, `C_1999`, `C_2011`,
`C_2017` — the sole exception being the AMPLIFY 1990 flag `C_1990`,
whose only defining block is unreachable when `__STDC__` is present. -/
theorem c6_c17_signal_all_flags (s : Int) (hosted : Bool) :
    (reboot { stdc := some s, stdcVersion := some 201710, stdcHosted := hosted }).hasC17
      = true ∧
    (reboot { stdc := some s, stdcVersion := some 201710, stdcHosted := hosted }).hasC18
      = true ∧
    (reboot { stdc := some s, stdcVersion := some 201710, stdcHosted := hosted }).hasAtLeastC11
      = true ∧
    (reboot { stdc := some s, stdcVersion := some 201710, stdcHosted := hosted }).hasAtLeastC99
      = true ∧
    (reboot { stdc := some s, stdcVersion := some 201710, stdcHosted := hosted }).hasAtLeastC94
      = true ∧
    (reboot { stdc := some s, stdcVersion := some 201710, stdcHosted := hosted }).hasAtLeastC89
      = true ∧
    (amplify { stdc := some s, stdcVersion := some 201710, stdcHosted := hosted }).c1989
      = true ∧
    (amplify { stdc := some s, stdcVersion := some 201710, stdcHosted := hosted }).c1994
      = true ∧
    (amplify { stdc := some s, stdcVersion := some 201710, stdcHosted := hosted }).c1999
      = true ∧
    (amplify { stdc := some s, stdcVersion := some 201710, stdcHosted := hosted }).c2011
      = true ∧
    (amplify { stdc := some s, stdcVersion := some 201710, stdcHosted := hosted }).c2017
      = true := by
  cases hosted <;>
    refine ⟨?_, ?_, ?_, ?_, ?_, ?_, ?_, ?_, ?_, ?_, ?_⟩ <;>
    simp [reboot, amplify, rebootEmb, rebootWinrt, rebootCli, rebootCppLadder,
      rebootCSection, amplifyEmb, amplifyCli, amplifyCppLadder, amplifyCVersion,
      amplifyC, amplifyCDefault, amplifyC1994, amplifyC1999, amplifyC2011,
      amplifyC2017]

/-- C7: with `__cplusplus` = 201103L and no CLI, WinRT or Embedded
signal, REBOOT yields its documented C++11 constant 201103L and AMPLIFY
its documented C++11 constant 2011, with the exact-level C++11 flag
defined and every dialect marker undefined in both variants (AMPLIFY
has no WinRT block or marker at all, so only its CLI and Embedded
markers exist to check). -/
theorem c7_cpp11_signal_outputs :
    (reboot { cplusplus := some 201103 }).cpp = some 201103 ∧
    (reboot { cplusplus := some 201103 }).cpp11 = true ∧
    (reboot { cplusplus := some 201103 }).cppCli = false ∧
    (reboot { cplusplus := some 201103 }).cppWcx = false ∧
    (reboot { cplusplus := some 201103 }).cppEmb = false ∧
    (amplify { cplusplus := some 201103 }).cpp = some 2011 ∧
    (amplify { cplusplus := some 201103 }).cpp2011 = true ∧
    (amplify { cplusplus := some 201103 }).cppCli = false ∧
    (amplify { cplusplus := some 201103 }).cppEmb = false := by
  decide

/-- C8 counterexample: with `__STDC_VERSION__` = 199901L and `__STDC__`
absent, the defaulting block of the AMPLIFY variant is reachable (its
broken `#if` condition is just the first line,
`! defined(AMPLIFY_PREPROCESSOR_STANDARD_C)`, which holds), so the
preprocessor does define `C_1990` on this input — while also emitting
the unjoined second condition line as stray program text — refuting the
claim that `C_1990` is never defined for every input. -/
theorem c8_amplify_c1990_counterexample :
    (amplify { stdcVersion := some 199901 }).c1990 = true ∧
    (amplify { stdcVersion := some 199901 }).strayTokens = true := by
  decide

/-- C8 amended: for every input in which the conforming-C signal
`__STDC__` is present (with any value, and all other signals arbitrary),
the AMPLIFY variant never defines the 1990-threshold flag `C_1990`: its
only defining block is guarded by the truncated condition
`! defined(AMPLIFY_PREPROCESSOR_STANDARD_C)`, which is false once the
`__STDC__` block has defined the constant.  Only when `__STDC__` is
absent and `__STDC_VERSION__` present does that block run, defining
`C_1990` and emitting stray tokens (see the counterexample). -/
theorem c8_amplify_c1990_unreachable (s : Int) (sv cp : Option Int)
    (h cl w em : Bool) :
    (amplify ⟨some s, sv, h, cp, cl, w, em⟩).c1990 = false := by
  cases sv <;>
    simp [amplify, amplifyCVersion, amplifyC, amplifyCDefault]

/-- C9: in the REBOOT variant, whenever `__STDC__` is present (any
value) and `__STDC_VERSION__` is absent, the flags `HAS_C` and
`HAS_C89` are defined while the normalized constant
`REBOOT_PREPROCESSOR_ENVIRONMENT_STANDARD_C` stays undefined, because
every `#define` of that constant sits inside `#ifdef __STDC_VERSION__`;
the remaining signals are arbitrary. -/
theorem c9_reboot_c89_without_constant (s : Int) (cp : Option Int)
    (h cl w em : Bool) :
    (reboot ⟨some s, none, h, cp, cl, w, em⟩).hasC = true ∧
    (reboot ⟨some s, none, h, cp, cl, w, em⟩).hasC89 = true ∧
    (reboot ⟨some s, none, h, cp, cl, w, em⟩).c = none := by
  refine ⟨?_, ?_, ?_⟩ <;>
    simp [reboot, rebootCSection] <;> split_ifs <;> rfl

/-- C10: in the REBOOT variant, for every input in which `__STDC__` is
absent (all other signals arbitrary), the marker
`REBOOT_PREPROCESSOR_ENVIRONMENT_NON_STANDARD_C` is defined: the
undetectable case is reported by a positively defined output macro. -/
theorem c10_reboot_non_standard_marker (sv cp : Option Int)
    (h cl w em : Bool) :
    (reboot ⟨none, sv, h, cp, cl, w, em⟩).nonStandardC = true := by
  simp [reboot, rebootCSection]
